import Mathlib

/-!
# Verification of the GCP domain-wide-delegation token acquisition module

Shallow embedding of `defaultcredsdelegation.js`: the Base64URL codec
(`base64UrlSafeEncode`), the JWT assertion builder (`createJwt`), the remote
signer flow (`getSignedJwt`), the token exchange (`getAccessTokenFromJWT`)
and the public facade (`getAccessToken`, `getAuthClient`).

Ambient effects (the default-credential provider, the IAM signBlob call, the
token endpoint, the filesystem and the two `Date.now()` clock reads) are
modelled by an explicit environment `Env`; each operation additionally
returns the ordered list of external calls it performed (`Effect`), so that
claims about which network calls are attempted, and with which credential
scopes, can be stated.
-/

set_option maxRecDepth 4000

/-! ## Base64 standard alphabet and the URL-safe rewrite

`base64UrlSafeEncode` in the source does `data.toString('base64')` (standard
base64 with `=` padding), then `replace(/\+/g, '-')`, `replace(/\//g, '_')`
and `replace(/=+$/, '')`. -/

/-- Standard base64 alphabet: index 0..63 to character. -/
def b64Char (n : Nat) : Char :=
  if n < 26 then Char.ofNat (65 + n)
  else if n < 52 then Char.ofNat (97 + (n - 26))
  else if n < 62 then Char.ofNat (48 + (n - 52))
  else if n = 62 then '+'
  else '/'

/-- Standard base64 of a byte list, chunked 3 bytes to 4 characters, with
`=` padding on the final partial chunk (`Buffer.toString('base64')`). -/
def encStd : List Nat → List Char
  | [] => []
  | [b1] => [b64Char (b1 / 4), b64Char (b1 % 4 * 16), '=', '=']
  | [b1, b2] => [b64Char (b1 / 4), b64Char (b1 % 4 * 16 + b2 / 16), b64Char (b2 % 16 * 4), '=']
  | b1 :: b2 :: b3 :: rest =>
    b64Char (b1 / 4) :: b64Char (b1 % 4 * 16 + b2 / 16) ::
      b64Char (b2 % 16 * 4 + b3 / 64) :: b64Char (b3 % 64) :: encStd rest

/-- The two global character replacements `+` to `-` and `/` to `_`. -/
def urlChar (c : Char) : Char :=
  if c = '+' then '-' else if c = '/' then '_' else c

/-- Remove the maximal trailing run of `=` characters (`replace(/=+$/, '')`). -/
def dropTrailingEq : List Char → List Char
  | [] => []
  | c :: cs =>
    match dropTrailingEq cs with
    | [] => if c = '=' then [] else [c]
    | r => c :: r

/-- `base64UrlSafeEncode` applied to a `Buffer` (a byte sequence):
standard base64, then the URL-safe replacements, then strip padding. -/
def base64UrlSafeEncode (bytes : List Nat) : String :=
  String.mk (dropTrailingEq ((encStd bytes).map urlChar))

/-- `base64UrlSafeEncode` applied to a JS string: `String.prototype.toString`
ignores the `'base64'` argument and returns the string itself, so only the
replacement and strip steps act. (The source calls the codec this way on the
base64 signature string returned by `authClient.sign`.) -/
def base64UrlSafeEncodeStr (s : String) : String :=
  String.mk (dropTrailingEq (s.data.map urlChar))

/-- URL-safe alphabet: the standard alphabet after the two replacements. -/
def b64u (n : Nat) : Char := urlChar (b64Char n)

/-- Direct unpadded URL-safe base64 (reference form used in proofs). -/
def encUrl : List Nat → List Char
  | [] => []
  | [b1] => [b64u (b1 / 4), b64u (b1 % 4 * 16)]
  | [b1, b2] => [b64u (b1 / 4), b64u (b1 % 4 * 16 + b2 / 16), b64u (b2 % 16 * 4)]
  | b1 :: b2 :: b3 :: rest =>
    b64u (b1 / 4) :: b64u (b1 % 4 * 16 + b2 / 16) ::
      b64u (b2 % 16 * 4 + b3 / 64) :: b64u (b3 % 64) :: encUrl rest

/-- Inverse character lookup for the URL-safe alphabet. -/
def b64uInv (c : Char) : Option Nat :=
  (List.range 64).find? fun n => b64u n == c

/-- Decoder for unpadded URL-safe base64, used to establish injectivity of
the encoder. -/
def decUrl : List Char → Option (List Nat)
  | [] => some []
  | [c1, c2] =>
    match b64uInv c1, b64uInv c2 with
    | some s1, some s2 => some [s1 * 4 + s2 / 16]
    | _, _ => none
  | [c1, c2, c3] =>
    match b64uInv c1, b64uInv c2, b64uInv c3 with
    | some s1, some s2, some s3 => some [s1 * 4 + s2 / 16, s2 % 16 * 16 + s3 / 4]
    | _, _, _ => none
  | c1 :: c2 :: c3 :: c4 :: rest =>
    match b64uInv c1, b64uInv c2, b64uInv c3, b64uInv c4, decUrl rest with
    | some s1, some s2, some s3, some s4, some bs =>
      some ((s1 * 4 + s2 / 16) :: (s2 % 16 * 16 + s3 / 4) :: (s3 % 4 * 64 + s4) :: bs)
    | _, _, _, _, _ => none
  | _ => none

/-! ## UTF-8 and JSON serialisation (`Buffer.from(JSON.stringify(obj))`) -/

/-- UTF-8 encoding of a single character. -/
def utf8Char (c : Char) : List Nat :=
  let n := c.toNat
  if n < 128 then [n]
  else if n < 2048 then [192 + n / 64, 128 + n % 64]
  else if n < 65536 then [224 + n / 4096, 128 + n / 64 % 64, 128 + n % 64]
  else [240 + n / 262144, 128 + n / 4096 % 64, 128 + n / 64 % 64, 128 + n % 64]

/-- UTF-8 bytes of a string (`Buffer.from(string)`). -/
def utf8Bytes (s : String) : List Nat :=
  (s.data.map utf8Char).flatten

/-- Lowercase hexadecimal digit. -/
def hexDigit (n : Nat) : Char :=
  if n < 10 then Char.ofNat (48 + n) else Char.ofNat (87 + (n - 10))

/-- Escaping of one character inside a JSON string literal, as
`JSON.stringify` performs it. -/
def jsonEscapeChar (c : Char) : List Char :=
  if c = '"' then ['\\', '"']
  else if c = '\\' then ['\\', '\\']
  else if c.toNat = 8 then ['\\', 'b']
  else if c.toNat = 9 then ['\\', 't']
  else if c.toNat = 10 then ['\\', 'n']
  else if c.toNat = 12 then ['\\', 'f']
  else if c.toNat = 13 then ['\\', 'r']
  else if c.toNat < 32 then ['\\', 'u', '0', '0', hexDigit (c.toNat / 16), hexDigit (c.toNat % 16)]
  else [c]

/-- A JSON string literal with surrounding quotes. -/
def jsonString (s : String) : String :=
  "\"" ++ String.mk (s.data.flatMap jsonEscapeChar) ++ "\""

/-- JSON values appearing in the JWT header and payload (strings and
integer numbers only). -/
inductive Json where
  | str (s : String)
  | num (n : Int)

/-- Rendering of a JSON value as `JSON.stringify` renders it. -/
def Json.render : Json → String
  | .str s => jsonString s
  | .num n => toString n

/-- `JSON.stringify` of an object literal: fields in insertion order. -/
def renderObj (fields : List (String × Json)) : String :=
  "\x7b" ++ String.intercalate "," (fields.map fun kv => jsonString kv.1 ++ ":" ++ kv.2.render) ++ "\x7d"

/-! ## The JWT assertion builder (`createJwt`) -/

/-- The `scopes` argument as the JS caller may pass it: an array of strings,
a single string, or any other non-array value (`Array.isArray` is `false`
for the last two). -/
inductive ScopesArg where
  | arr (l : List String)
  | str (s : String)
  | other

/-- `Array.isArray(scopes)`. -/
def ScopesArg.isArr : ScopesArg → Bool
  | .arr _ => true
  | _ => false

/-- Errors thrown by the module: `errorObj` for `throw new Error(msg)`,
`thrown` for `throw(plainString)`. -/
inductive JsError where
  | errorObj (msg : String)
  | thrown (msg : String)

/-- The fixed `aud` value of every assertion payload. -/
def audUrl : String := "https://www.googleapis.com/oauth2/v4/token"

/-- The decoded assertion payload. `tExp` and `tIat` are the two
`Date.now()` readings (in milliseconds): the source evaluates `Date.now()`
once for the `exp` field and again, afterwards, for the `iat` field. -/
structure JwtBody where
  iss : String
  sub : String
  scope : String
  aud : String
  exp : Int
  iat : Int

/-- The payload object built by `createJwt` for a scope array `scopes`. -/
def jwtBody (sub service_account : String) (scopes : List String) (expiresInMins : Int)
    (tExp tIat : Nat) : JwtBody :=
  { iss := service_account
    sub := sub
    scope := String.intercalate " " scopes
    aud := audUrl
    exp := (tExp / 1000 : Nat) + expiresInMins * 60
    iat := (tIat / 1000 : Nat) }

/-- The payload fields in the insertion order of the source's object literal. -/
def bodyFields (b : JwtBody) : List (String × Json) :=
  [("iss", .str b.iss), ("sub", .str b.sub), ("scope", .str b.scope),
   ("aud", .str b.aud), ("exp", .num b.exp), ("iat", .num b.iat)]

/-- The fixed header object fields. -/
def headerFields : List (String × Json) :=
  [("alg", .str "RS256"), ("typ", .str "JWT")]

/-- The JSON text of the fixed header object. -/
def headerJsonStr : String := "\x7b\"alg\":\"RS256\",\"typ\":\"JWT\"\x7d"

/-- The unsigned assertion `base64url(header) ++ "." ++ base64url(payload)`
produced on the valid (array-scopes) path of `createJwt`. -/
def unsignedJwt (sub service_account : String) (scopes : List String) (expiresInMins : Int)
    (tExp tIat : Nat) : String :=
  base64UrlSafeEncode (utf8Bytes (renderObj headerFields)) ++ "." ++
    base64UrlSafeEncode (utf8Bytes (renderObj (bodyFields (jwtBody sub service_account scopes expiresInMins tExp tIat))))

/-- `createJwt(sub, service_account, scopes, expiresInMins)`: throws unless
`scopes` is an array, otherwise returns the unsigned assertion. -/
def createJwt (sub service_account : String) (scopes : ScopesArg) (expiresInMins : Int)
    (tExp tIat : Nat) : Except JsError String :=
  match scopes with
  | .arr l => .ok (unsignedJwt sub service_account l expiresInMins tExp tIat)
  | _ => .error (.errorObj "scopes should be provided as an array")

/-- Whether a call to the builder succeeded. -/
def isOkB : Except JsError String → Bool
  | .ok _ => true
  | .error _ => false

/-! ## Environment, effects, and the facade -/

/-- An access token object as returned by the token endpoint or the local
JWT client (`res.data` / `authorize()` result). -/
structure Token where
  access_token : String
  expires_in : Int

/-- The ambient world the module interacts with. `gcpEnv` is the truthiness
of `google.auth.getEnv()`; `credsEmail` is `getCredentials().client_email`;
`sign` is the IAM signBlob call (returning a base64 signature string);
`credsPath` is `process.env.GOOGLE_APPLICATION_CREDENTIALS`; `readCredFile`
yields the parsed `(client_email, private_key)` of a credential file;
`localAuthorize` is `google.auth.JWT(...).authorize()`; `exchange` is the
token-endpoint POST; `tExp` and `tIat` are the first and second `Date.now()`
readings in `createJwt`. -/
structure Env where
  gcpEnv : Bool
  credsEmail : String
  sign : String → String
  credsPath : Option String
  readCredFile : String → String × String
  localAuthorize : String → String → ScopesArg → String → Token
  exchange : String → Token
  tExp : Nat
  tIat : Nat

/-- External calls made during a run, in order. `createAuth` records the
construction of a `google.auth.GoogleAuth` client with its scope option
(`none` when constructed without options); `getCreds` and `signBlob` record
which client scopes the performing credential was constructed with. -/
inductive Effect where
  | createAuth (scopes : Option (List String))
  | getCreds (clientScopes : Option (List String))
  | signBlob (clientScopes : Option (List String)) (data : String)
  | exchange (assertion : String)
  | readFile (path : String)
  | localAuthorize (email : String) (key : String) (scopes : ScopesArg) (sub : String)

/-- The single scope the remote-signing credential is constructed with. -/
def iamScope : String := "https://www.googleapis.com/auth/iam"

/-- `getSignedJwt(sub, scopes, expiresInMins)`: builds the IAM-scoped auth
client, resolves the default service account, builds the unsigned assertion
and has it signed remotely. -/
def getSignedJwt (env : Env) (sub : String) (scopes : ScopesArg) (expiresInMins : Int) :
    Except JsError String × List Effect :=
  let cs : Option (List String) := some [iamScope]
  match createJwt sub env.credsEmail scopes expiresInMins env.tExp env.tIat with
  | .error e => (.error e, [.createAuth cs, .getCreds cs])
  | .ok jwt =>
    (.ok (jwt ++ "." ++ base64UrlSafeEncodeStr (env.sign jwt)),
     [.createAuth cs, .getCreds cs, .signBlob cs jwt])

/-- `getAccessTokenFromJWT(signedJwt)`: constructs a default auth client and
POSTs the JWT-bearer grant to the token endpoint. -/
def getAccessTokenFromJWT (env : Env) (signedJwt : String) : Token × List Effect :=
  (env.exchange signedJwt, [.createAuth none, .exchange signedJwt])

/-- The string thrown when neither a GCP environment nor a credential file
path is available. -/
def notInGcpMsg : String :=
  "Not running in GCP so unable to use a default service account and unable a keyfile"

/-- `getAccessToken(sub, scopes)`: the facade state machine. In GCP, the
remote path with a hard-coded 60-minute lifetime; otherwise the local
keyfile path when `GOOGLE_APPLICATION_CREDENTIALS` is set; otherwise the
terminal throw. -/
def getAccessToken (env : Env) (sub : String) (scopes : ScopesArg) :
    Except JsError Token × List Effect :=
  if env.gcpEnv then
    match getSignedJwt env sub scopes 60 with
    | (.error e, tr) => (.error e, tr)
    | (.ok sjwt, tr) =>
      let r := getAccessTokenFromJWT env sjwt
      (.ok r.1, tr ++ r.2)
  else
    match env.credsPath with
    | some path =>
      let creds := env.readCredFile path
      (.ok (env.localAuthorize creds.1 creds.2 scopes sub),
       [.readFile path, .localAuthorize creds.1 creds.2 scopes sub])
    | none => (.error (.thrown notInGcpMsg), [])

/-- The OAuth2 client handle returned by `getAuthClient`. -/
structure OAuth2Client where
  credentials : Option Token

/-- `getAuthClient(sub, scopes)`. The source assigns `token = await
getAccessToken(...)` without `const`/`let`/`var`; the module is not in
strict mode, so the assignment creates or overwrites the module-external
global binding `token`. `globalToken` is that global before the call; the
second component of the result is its value after the call. -/
def getAuthClient (env : Env) (globalToken : Option Token) (sub : String) (scopes : ScopesArg) :
    Except JsError OAuth2Client × Option Token × List Effect :=
  match getAccessToken env sub scopes with
  | (.error e, tr) => (.error e, globalToken, tr)
  | (.ok tok, tr) => (.ok ⟨some tok⟩, some tok, tr)

/-! ## Trace projections used in the claims -/

/-- The client scopes recorded by credential-resolution and remote-sign
calls in a trace. -/
def signingClientScopes (tr : List Effect) : List (Option (List String)) :=
  tr.filterMap fun e =>
    match e with
    | .getCreds cs => some cs
    | .signBlob cs _ => some cs
    | _ => none

/-- The scope options of the auth clients constructed in a trace. -/
def createAuthScopes (tr : List Effect) : List (Option (List String)) :=
  tr.filterMap fun e =>
    match e with
    | .createAuth cs => some cs
    | _ => none

/-- The data blobs sent to the remote sign operation in a trace. -/
def signBlobData (tr : List Effect) : List String :=
  tr.filterMap fun e =>
    match e with
    | .signBlob _ d => some d
    | _ => none

/-- Whether a trace contains any remote-sign or token-exchange call. -/
def hasNetworkSignOrExchange (tr : List Effect) : Bool :=
  tr.any fun e =>
    match e with
    | .signBlob _ _ => true
    | .exchange _ => true
    | .localAuthorize _ _ _ _ => true
    | _ => false

/-! ## Concrete environments for witnesses -/

/-- A concrete GCP-like environment. -/
def demoEnv : Env :=
  { gcpEnv := true
    credsEmail := "svc@project.iam.gserviceaccount.com"
    sign := fun _ => "c2ln"
    credsPath := none
    readCredFile := fun _ => ("", "")
    localAuthorize := fun _ _ _ _ => ⟨"", 0⟩
    exchange := fun _ => ⟨"tok123", 3600⟩
    tExp := 1700000000000
    tIat := 1700000000000 }

/-- A concrete environment with neither GCP ambient identity nor a
credential file path. -/
def bareEnv : Env :=
  { demoEnv with gcpEnv := false, credsPath := none }

/-! ## Properties of the Base64URL codec -/

/-- The URL-safe alphabet avoids `+`, `/` and `=` on all 64 indices. -/
theorem b64u_props : ∀ n, n < 64 → b64u n ≠ '+' ∧ b64u n ≠ '/' ∧ b64u n ≠ '=' := by decide

/-- Character-level inversion of the URL-safe alphabet. -/
theorem b64uInv_b64u : ∀ n, n < 64 → b64uInv (b64u n) = some n := by decide

theorem urlChar_pad : urlChar '=' = '=' := by decide

/-- Stripping trailing `=` passes over a prefix free of `=`. -/
theorem dropTrailingEq_append (a b : List Char) (h : ∀ c ∈ a, c ≠ '=') :
    dropTrailingEq (a ++ b) = a ++ dropTrailingEq b := by
  induction a with
  | nil => simp
  | cons c cs ih =>
    have hc : c ≠ '=' := h c (by simp)
    have ih' := ih fun x hx => h x (by simp [hx])
    simp only [List.cons_append, dropTrailingEq, List.append_eq, ih']
    cases hcs : cs ++ dropTrailingEq b with
    | nil => simp [if_neg hc]
    | cons x xs => rfl

theorem dropTrailingEq_pad2 (u1 u2 : Char) (h2 : u2 ≠ '=') :
    dropTrailingEq [u1, u2, '=', '='] = [u1, u2] := by
  simp [dropTrailingEq, h2]

theorem dropTrailingEq_pad1 (u1 u2 u3 : Char) (h3 : u3 ≠ '=') :
    dropTrailingEq [u1, u2, u3, '='] = [u1, u2, u3] := by
  simp [dropTrailingEq, h3]

/-- On byte sequences, the source's encode (standard base64, replace, strip)
coincides with direct unpadded URL-safe base64. -/
theorem encStd_url_eq_encUrl : ∀ bytes, (∀ x ∈ bytes, x < 256) →
    dropTrailingEq ((encStd bytes).map urlChar) = encUrl bytes := by
  intro bytes
  induction bytes using encStd.induct with
  | case1 => intro _; rfl
  | case2 b1 =>
    intro _
    have h2 : b64u (b1 % 4 * 16) ≠ '=' := (b64u_props _ (by omega)).2.2
    simp only [encStd, encUrl, List.map, urlChar_pad]
    exact dropTrailingEq_pad2 _ _ h2
  | case3 b1 b2 =>
    intro _
    have h3 : b64u (b2 % 16 * 4) ≠ '=' := (b64u_props _ (by omega)).2.2
    simp only [encStd, encUrl, List.map, urlChar_pad]
    exact dropTrailingEq_pad1 _ _ _ h3
  | case4 b1 b2 b3 rest ih =>
    intro h
    have hb1 : b1 < 256 := h b1 (by simp)
    have hb2 : b2 < 256 := h b2 (by simp)
    have hb3 : b3 < 256 := h b3 (by simp)
    have ih' := ih fun x hx => h x (by simp [hx])
    simp only [encStd, encUrl, List.map]
    have hpre : ∀ c ∈ [b64u (b1 / 4), b64u (b1 % 4 * 16 + b2 / 16),
        b64u (b2 % 16 * 4 + b3 / 64), b64u (b3 % 64)], c ≠ '=' := by
      intro c hcm
      simp only [List.mem_cons, List.not_mem_nil, or_false] at hcm
      rcases hcm with rfl | rfl | rfl | rfl
      · exact (b64u_props _ (by omega)).2.2
      · exact (b64u_props _ (by omega)).2.2
      · exact (b64u_props _ (by omega)).2.2
      · exact (b64u_props _ (by omega)).2.2
    calc dropTrailingEq ([b64u (b1 / 4), b64u (b1 % 4 * 16 + b2 / 16),
            b64u (b2 % 16 * 4 + b3 / 64), b64u (b3 % 64)] ++ (encStd rest).map urlChar)
        = [b64u (b1 / 4), b64u (b1 % 4 * 16 + b2 / 16), b64u (b2 % 16 * 4 + b3 / 64),
            b64u (b3 % 64)] ++ dropTrailingEq ((encStd rest).map urlChar) :=
          dropTrailingEq_append _ _ hpre
      _ = _ := by rw [ih']; rfl

theorem base64UrlSafeEncode_eq_encUrl (bytes : List Nat) (h : ∀ x ∈ bytes, x < 256) :
    base64UrlSafeEncode bytes = String.mk (encUrl bytes) := by
  unfold base64UrlSafeEncode
  rw [encStd_url_eq_encUrl bytes h]

/-- Decoding inverts encoding on byte sequences. -/
theorem decUrl_encUrl : ∀ bytes, (∀ x ∈ bytes, x < 256) →
    decUrl (encUrl bytes) = some bytes := by
  intro bytes
  induction bytes using encUrl.induct with
  | case1 => intro _; rfl
  | case2 b1 =>
    intro h
    have hb1 : b1 < 256 := h b1 (by simp)
    simp only [encUrl, decUrl]
    rw [b64uInv_b64u _ (by omega), b64uInv_b64u _ (by omega)]
    simp only [Option.some.injEq, List.cons.injEq, and_true]
    omega
  | case3 b1 b2 =>
    intro h
    have hb1 : b1 < 256 := h b1 (by simp)
    have hb2 : b2 < 256 := h b2 (by simp)
    simp only [encUrl, decUrl]
    rw [b64uInv_b64u _ (by omega), b64uInv_b64u _ (by omega), b64uInv_b64u _ (by omega)]
    simp only [Option.some.injEq, List.cons.injEq, and_true]
    constructor <;> omega
  | case4 b1 b2 b3 rest ih =>
    intro h
    have hb1 : b1 < 256 := h b1 (by simp)
    have hb2 : b2 < 256 := h b2 (by simp)
    have hb3 : b3 < 256 := h b3 (by simp)
    have ih' := ih fun x hx => h x (by simp [hx])
    simp only [encUrl, decUrl]
    rw [b64uInv_b64u _ (by omega), b64uInv_b64u _ (by omega), b64uInv_b64u _ (by omega),
      b64uInv_b64u _ (by omega), ih']
    simp only [Option.some.injEq, List.cons.injEq, and_true]
    refine ⟨by omega, by omega, by omega⟩

/-- Injectivity of the source's encoder on byte sequences. -/
theorem base64UrlSafeEncode_injective (l1 l2 : List Nat)
    (h1 : ∀ x ∈ l1, x < 256) (h2 : ∀ x ∈ l2, x < 256)
    (he : base64UrlSafeEncode l1 = base64UrlSafeEncode l2) : l1 = l2 := by
  rw [base64UrlSafeEncode_eq_encUrl l1 h1, base64UrlSafeEncode_eq_encUrl l2 h2] at he
  have hdata : encUrl l1 = encUrl l2 := congrArg String.data he
  have r1 := decUrl_encUrl l1 h1
  have r2 := decUrl_encUrl l2 h2
  rw [hdata, r2] at r1
  exact Option.some.inj r1.symm

/-- Every character the encoder emits avoids `+`, `/` and `=`. -/
theorem encUrl_chars : ∀ bytes, (∀ x ∈ bytes, x < 256) →
    ∀ c ∈ encUrl bytes, c ≠ '+' ∧ c ≠ '/' ∧ c ≠ '=' := by
  intro bytes
  induction bytes using encUrl.induct with
  | case1 => intro _ c hc; simp [encUrl] at hc
  | case2 b1 =>
    intro h c hc
    have hb1 : b1 < 256 := h b1 (by simp)
    simp only [encUrl, List.mem_cons, List.not_mem_nil, or_false] at hc
    rcases hc with rfl | rfl
    · exact b64u_props _ (by omega)
    · exact b64u_props _ (by omega)
  | case3 b1 b2 =>
    intro h c hc
    have hb1 : b1 < 256 := h b1 (by simp)
    have hb2 : b2 < 256 := h b2 (by simp)
    simp only [encUrl, List.mem_cons, List.not_mem_nil, or_false] at hc
    rcases hc with rfl | rfl | rfl
    · exact b64u_props _ (by omega)
    · exact b64u_props _ (by omega)
    · exact b64u_props _ (by omega)
  | case4 b1 b2 b3 rest ih =>
    intro h c hc
    have hb1 : b1 < 256 := h b1 (by simp)
    have hb2 : b2 < 256 := h b2 (by simp)
    have hb3 : b3 < 256 := h b3 (by simp)
    have ih' := ih fun x hx => h x (by simp [hx])
    simp only [encUrl, List.mem_cons] at hc
    rcases hc with rfl | rfl | rfl | rfl | hmem
    · exact b64u_props _ (by omega)
    · exact b64u_props _ (by omega)
    · exact b64u_props _ (by omega)
    · exact b64u_props _ (by omega)
    · exact ih' c hmem

/-! ## Claims -/

/-- C5: for every input byte sequence, including the empty one, the codec's
encode is total (it is a Lean function defined on all byte lists), its
output contains none of the characters `+`, `/`, `=`, and it is injective:
byte-distinct inputs map to distinct output strings. -/
theorem base64UrlSafeEncode_total_urlsafe_injective (l1 l2 : List Nat)
    (h1 : ∀ x ∈ l1, x < 256) (h2 : ∀ x ∈ l2, x < 256) :
    (∀ c ∈ (base64UrlSafeEncode l1).data, c ≠ '+' ∧ c ≠ '/' ∧ c ≠ '=') ∧
    (base64UrlSafeEncode l1 = base64UrlSafeEncode l2 → l1 = l2) := by
  constructor
  · intro c hc
    rw [base64UrlSafeEncode_eq_encUrl l1 h1] at hc
    exact encUrl_chars l1 h1 c hc
  · exact base64UrlSafeEncode_injective l1 l2 h1 h2

/-- C5 witness: the property instantiated at the bytes of `"hi"` and at the
empty byte sequence. -/
theorem base64UrlSafeEncode_total_urlsafe_injective_witness :
    (∀ c ∈ (base64UrlSafeEncode [104, 105]).data, c ≠ '+' ∧ c ≠ '/' ∧ c ≠ '=') ∧
    (base64UrlSafeEncode [104, 105] = base64UrlSafeEncode [] → [104, 105] = ([] : List Nat)) :=
  base64UrlSafeEncode_total_urlsafe_injective [104, 105] [] (by decide) (by decide)

/-- C4: for every valid call of the builder, the header segment of the
returned unsigned assertion is the encoding of the fixed JSON text
`headerJsonStr` (the object with `alg` equal to `"RS256"` and `typ` equal to
`"JWT"`, and nothing else), identical for every assertion; moreover that
segment decodes uniquely: any byte sequence encoding to it is exactly the
UTF-8 of `headerJsonStr`. -/
theorem createJwt_header_fixed (sub sa : String) (l : List String) (mins : Int) (tE tI : Nat) :
    createJwt sub sa (.arr l) mins tE tI =
      .ok (base64UrlSafeEncode (utf8Bytes headerJsonStr) ++ "." ++
        base64UrlSafeEncode (utf8Bytes (renderObj (bodyFields (jwtBody sub sa l mins tE tI))))) ∧
    renderObj headerFields = headerJsonStr ∧
    (∀ bs : List Nat, (∀ x ∈ bs, x < 256) →
      base64UrlSafeEncode bs = base64UrlSafeEncode (utf8Bytes headerJsonStr) →
      bs = utf8Bytes headerJsonStr) := by
  refine ⟨?_, by decide, ?_⟩
  · unfold createJwt unsignedJwt
    rw [show renderObj headerFields = headerJsonStr by decide]
  · intro bs hb he
    exact base64UrlSafeEncode_injective bs _ hb (by decide) he

/-- C4 witness: the header property at a concrete call, with the decoding
conjunct discharged at the header bytes themselves. -/
theorem createJwt_header_fixed_witness :
    createJwt "alice@example.com" "svc@project.iam.gserviceaccount.com"
        (.arr ["https://mail.google.com"]) 60 1700000000000 1700000000000 =
      .ok (base64UrlSafeEncode (utf8Bytes headerJsonStr) ++ "." ++
        base64UrlSafeEncode (utf8Bytes (renderObj (bodyFields
          (jwtBody "alice@example.com" "svc@project.iam.gserviceaccount.com"
            ["https://mail.google.com"] 60 1700000000000 1700000000000))))) ∧
    utf8Bytes headerJsonStr = utf8Bytes headerJsonStr := by
  have h := createJwt_header_fixed "alice@example.com" "svc@project.iam.gserviceaccount.com"
    ["https://mail.google.com"] 60 1700000000000 1700000000000
  exact ⟨h.1, h.2.2 (utf8Bytes headerJsonStr) (by decide) rfl⟩

/-- C1 counterexample: the source evaluates `Date.now()` separately for
`exp` and then for `iat`; with the first reading at 999 ms and the second at
1000 ms (straddling a second boundary) and a 1-minute lifetime, the built
payload has exp - iat = 59, not 60. -/
theorem createJwt_exp_iat_counterexample :
    (jwtBody "alice@example.com" "svc@project.iam.gserviceaccount.com"
        ["https://mail.google.com"] 1 999 1000).exp -
      (jwtBody "alice@example.com" "svc@project.iam.gserviceaccount.com"
        ["https://mail.google.com"] 1 999 1000).iat ≠ 1 * 60 := by decide

/-- C1 (amended): whenever the two `Date.now()` readings fall in the same
Unix second — in particular whenever they are equal — the payload of the
built assertion satisfies exp - iat = lifetimeMinutes * 60 exactly. -/
theorem createJwt_exp_iat_diff (sub sa : String) (l : List String) (mins : Int)
    (tE tI : Nat) (h : tE / 1000 = tI / 1000) :
    (jwtBody sub sa l mins tE tI).exp - (jwtBody sub sa l mins tE tI).iat = mins * 60 := by
  simp only [jwtBody]
  omega

/-- C1 witness: the amended property at concrete clock readings 123 ms apart
inside the same second, with a 2-minute lifetime. -/
theorem createJwt_exp_iat_diff_witness :
    1700000000123 / 1000 = 1700000000456 / 1000 ∧
    (jwtBody "alice@example.com" "svc@project.iam.gserviceaccount.com" ["https://mail.google.com"]
        2 1700000000123 1700000000456).exp -
      (jwtBody "alice@example.com" "svc@project.iam.gserviceaccount.com" ["https://mail.google.com"]
        2 1700000000123 1700000000456).iat = 2 * 60 :=
  ⟨by decide, createJwt_exp_iat_diff _ _ _ _ _ _ (by decide)⟩

/-- C6: for a fixed subject, issuer and scope list, payloads built at two
different pairs of clock readings agree on the `iss`, `sub`, `scope` and
`aud` fields - only `exp` and `iat` can differ. -/
theorem createJwt_time_only_fields (sub sa : String) (l : List String) (mins : Int)
    (tE tI tE' tI' : Nat) :
    (jwtBody sub sa l mins tE tI).iss = (jwtBody sub sa l mins tE' tI').iss ∧
    (jwtBody sub sa l mins tE tI).sub = (jwtBody sub sa l mins tE' tI').sub ∧
    (jwtBody sub sa l mins tE tI).scope = (jwtBody sub sa l mins tE' tI').scope ∧
    (jwtBody sub sa l mins tE tI).aud = (jwtBody sub sa l mins tE' tI').aud :=
  ⟨rfl, rfl, rfl, rfl⟩

/-- C3: whenever the `scopes` argument is not an array — in particular when
it is a single string — the builder throws the `scopes should be provided
as an array` error and never returns an assertion. -/
theorem createJwt_nonArray_scopes_error (sub sa : String) (sc : ScopesArg) (mins : Int)
    (tE tI : Nat) (h : sc.isArr = false) :
    createJwt sub sa sc mins tE tI =
      .error (.errorObj "scopes should be provided as an array") := by
  cases sc with
  | arr l => simp [ScopesArg.isArr] at h
  | str s => rfl
  | other => rfl

/-- C3 witness: passing the scope as a single string fails. -/
theorem createJwt_nonArray_scopes_error_witness :
    (ScopesArg.str "https://mail.google.com").isArr = false ∧
    createJwt "alice@example.com" "svc@project.iam.gserviceaccount.com"
        (.str "https://mail.google.com") 60 1700000000000 1700000000000 =
      .error (.errorObj "scopes should be provided as an array") :=
  ⟨rfl, createJwt_nonArray_scopes_error _ _ _ _ _ _ rfl⟩

/-- C9 counterexample: with lifetime 0 the builder does not fail - it
returns an assertion. -/
theorem createJwt_nonpositive_lifetime_counterexample :
    isOkB (createJwt "alice@example.com" "svc@project.iam.gserviceaccount.com"
      (.arr ["https://mail.google.com"]) 0 1700000000000 1700000000000) = true := rfl

/-- C9 (amended): the builder performs no validation of `expiresInMins`:
for every non-positive lifetime it succeeds, and (when both clock readings
fall in the same second) the returned assertion is already expired,
exp ≤ iat. -/
theorem createJwt_nonpositive_lifetime (sub sa : String) (l : List String) (mins : Int)
    (tE tI : Nat) (hm : mins ≤ 0) (ht : tE / 1000 = tI / 1000) :
    isOkB (createJwt sub sa (.arr l) mins tE tI) = true ∧
    (jwtBody sub sa l mins tE tI).exp ≤ (jwtBody sub sa l mins tE tI).iat := by
  refine ⟨rfl, ?_⟩
  simp only [jwtBody]
  omega

/-- C9 witness: the amended property at lifetime 0. -/
theorem createJwt_nonpositive_lifetime_witness :
    (0 : Int) ≤ 0 ∧ 1700000000000 / 1000 = 1700000000000 / 1000 ∧
    (isOkB (createJwt "alice@example.com" "svc@project.iam.gserviceaccount.com"
        (.arr ["https://mail.google.com"]) 0 1700000000000 1700000000000) = true ∧
      (jwtBody "alice@example.com" "svc@project.iam.gserviceaccount.com"
          ["https://mail.google.com"] 0 1700000000000 1700000000000).exp ≤
        (jwtBody "alice@example.com" "svc@project.iam.gserviceaccount.com"
          ["https://mail.google.com"] 0 1700000000000 1700000000000).iat) :=
  ⟨by decide, rfl, createJwt_nonpositive_lifetime _ _ _ _ _ _ (by decide) rfl⟩

/-- C2: when no ambient cloud identity is discoverable and no credential
file path is configured, `getAccessToken` throws the terminal cannot-
authenticate condition (`notInGcpMsg`, a `thrown` value distinct from the
builder's argument error) and its trace is empty: no signing call, no
token-exchange call, no file read, no local authorize. -/
theorem getAccessToken_no_credentials (env : Env) (sub : String) (sc : ScopesArg)
    (hg : env.gcpEnv = false) (hp : env.credsPath = none) :
    getAccessToken env sub sc = (.error (.thrown notInGcpMsg), []) ∧
    hasNetworkSignOrExchange (getAccessToken env sub sc).2 = false := by
  have hrun : getAccessToken env sub sc = (.error (.thrown notInGcpMsg), []) := by
    simp [getAccessToken, hg, hp]
  exact ⟨hrun, by rw [hrun]; rfl⟩

/-- C2 witness: the terminal failure in a concrete bare environment. -/
theorem getAccessToken_no_credentials_witness :
    getAccessToken bareEnv "alice@example.com" (.arr ["https://mail.google.com"]) =
      (.error (.thrown notInGcpMsg), []) ∧
    hasNetworkSignOrExchange
      (getAccessToken bareEnv "alice@example.com" (.arr ["https://mail.google.com"])).2 = false :=
  getAccessToken_no_credentials bareEnv _ _ rfl rfl

/-- C7: in every run of the remote signer flow, the only auth client it
constructs is scoped with exactly the single IAM signing scope, every
credential-resolution and sign-blob call is performed by a client with that
scope, and the constructed client scopes do not depend on the target scopes
(two runs with different arguments construct identically scoped clients). -/
theorem getSignedJwt_signing_scope (env env' : Env) (sub sub' : String)
    (sc sc' : ScopesArg) (mins mins' : Int) :
    createAuthScopes (getSignedJwt env sub sc mins).2 = [some [iamScope]] ∧
    signingClientScopes (getSignedJwt env sub sc mins).2 =
      List.replicate (signingClientScopes (getSignedJwt env sub sc mins).2).length
        (some [iamScope]) ∧
    createAuthScopes (getSignedJwt env sub sc mins).2 =
      createAuthScopes (getSignedJwt env' sub' sc' mins').2 := by
  have key : ∀ (e : Env) (s : String) (a : ScopesArg) (m : Int),
      createAuthScopes (getSignedJwt e s a m).2 = [some [iamScope]] ∧
      signingClientScopes (getSignedJwt e s a m).2 =
        List.replicate (signingClientScopes (getSignedJwt e s a m).2).length
          (some [iamScope]) := by
    intro e s a m
    cases hj : createJwt s e.credsEmail a m e.tExp e.tIat with
    | error err => simp [getSignedJwt, hj, createAuthScopes, signingClientScopes]
    | ok jwt => simp [getSignedJwt, hj, createAuthScopes, signingClientScopes]
  exact ⟨(key env sub sc mins).1, (key env sub sc mins).2,
    ((key env sub sc mins).1).trans ((key env' sub' sc' mins').1).symm⟩

/-- C10: on the remote-signing path the facade always builds the assertion
with the hard-coded lifetime of 60 minutes: the blob sent to the remote
sign operation is exactly the unsigned assertion built with lifetime 60,
and (given equal clock readings for the two `Date.now()` calls) its payload
satisfies exp = iat + 3600. -/
theorem getAccessToken_remote_fixed_lifetime (env : Env) (sub : String) (l : List String)
    (hg : env.gcpEnv = true) :
    signBlobData (getAccessToken env sub (.arr l)).2 =
      [unsignedJwt sub env.credsEmail l 60 env.tExp env.tIat] ∧
    (env.tExp / 1000 = env.tIat / 1000 →
      (jwtBody sub env.credsEmail l 60 env.tExp env.tIat).exp =
        (jwtBody sub env.credsEmail l 60 env.tExp env.tIat).iat + 3600) := by
  constructor
  · simp [getAccessToken, hg, getSignedJwt, createJwt, getAccessTokenFromJWT, signBlobData]
  · intro ht
    simp only [jwtBody]
    omega

/-- C10 witness: the fixed-lifetime property in a concrete GCP environment
whose two clock readings agree. -/
theorem getAccessToken_remote_fixed_lifetime_witness :
    demoEnv.gcpEnv = true ∧
    signBlobData (getAccessToken demoEnv "alice@example.com"
        (.arr ["https://mail.google.com"])).2 =
      [unsignedJwt "alice@example.com" demoEnv.credsEmail ["https://mail.google.com"] 60
        demoEnv.tExp demoEnv.tIat] ∧
    (jwtBody "alice@example.com" demoEnv.credsEmail ["https://mail.google.com"] 60
        demoEnv.tExp demoEnv.tIat).exp =
      (jwtBody "alice@example.com" demoEnv.credsEmail ["https://mail.google.com"] 60
        demoEnv.tExp demoEnv.tIat).iat + 3600 := by
  have h := getAccessToken_remote_fixed_lifetime demoEnv "alice@example.com"
    ["https://mail.google.com"] rfl
  exact ⟨rfl, h.1, h.2 rfl⟩

/-- C8: contrary to the claim, `getAuthClient` does write state that
outlives the call: the source assigns `token = await getAccessToken(...)`
without a declaration, so (the module not being in strict mode) the value
is stored in the module-external global binding `token`. Starting from a
world in which that global is unset, a successful `getAuthClient` call
leaves it set to the obtained token. -/
theorem getAuthClient_writes_global_token :
    (getAuthClient demoEnv none "alice@example.com" (.arr ["https://mail.google.com"])).2.1 =
      some ⟨"tok123", 3600⟩ ∧
    (none : Option Token) ≠ some (⟨"tok123", 3600⟩ : Token) :=
  ⟨rfl, fun h => Option.noConfusion h⟩
